import Mathlib

/-!
# Verification of `pandas_drf_tools/pagination.py`

A shallow embedding of the class `LimitOffsetPagination` from
`pandas_drf_tools/pagination.py`, together with the small helpers it calls
from `rest_framework` (`_positive_int`, `_divide_with_ceil`,
`replace_query_param`, `remove_query_param`), and theorems about the
windowing, link-building and page-number arithmetic.

Modelling conventions:
* A pandas `DataFrame` is modelled by its list of rows (`List α`): the pager
  only calls `len(dataframe)` and takes the slice `dataframe[a:b]`.
* Python `int` is `Int`; Python floor division `//` is `Int.fdiv` and Python
  `%` is `Int.fmod` (both round toward the sign of the divisor, like Python).
* A raw query-string value is represented by the outcome of Python `int()`
  on it: `none` when `int()` would raise `ValueError`.
* Python `None` is `Option.none`; `try/except` becomes a `match` on `Option`.
-/

/-- A URL, as manipulated by `rest_framework.utils.urls`: an opaque base
(scheme, host, path) plus the query string as an ordered list of key/value
pairs. -/
structure Url where
  base : String
  query : List (String × String)
  deriving DecidableEq, Repr

/-- Look a key up in the URL's query string (first occurrence). -/
def Url.getParam (u : Url) (k : String) : Option String :=
  (u.query.find? (fun p => p.1 == k)).map Prod.snd

/-- `rest_framework.utils.urls.replace_query_param(url, key, val)`: set `k` to
`v` in the query string, replacing (not duplicating) any existing occurrence
of `k`. -/
def replace_query_param (u : Url) (k v : String) : Url :=
  { u with query := u.query.filter (fun p => p.1 ≠ k) ++ [(k, v)] }

/-- `rest_framework.utils.urls.remove_query_param(url, key)`: drop every
occurrence of `k` from the query string. -/
def remove_query_param (u : Url) (k : String) : Url :=
  { u with query := u.query.filter (fun p => p.1 ≠ k) }

/-- An HTTP request as the pager sees it: `queryParams` maps a parameter name
to the `int()` parse outcome of its raw string value (inner `none` = `int()`
raises `ValueError`), and `request.build_absolute_uri()` returns
`absoluteUri`. -/
structure Request where
  queryParams : List (String × Option Int)
  absoluteUri : Url
  deriving DecidableEq

/-- Python dict lookup `request.query_params[k]`; `none` models `KeyError`. -/
def Request.getQueryParam (r : Request) (k : String) : Option (Option Int) :=
  (r.queryParams.find? (fun p => p.1 == k)).map Prod.snd

/-- `rest_framework.pagination._positive_int(integer_string, strict, cutoff)`.
The first argument is the `int()` parse outcome of `integer_string`; the
result is `none` when the Python function raises `ValueError`.  `if cutoff:`
is Python truthiness, so a cutoff of `None` or `0` is skipped. -/
def _positive_int (parsed : Option Int) (strict : Bool) (cutoff : Option Int) : Option Int :=
  match parsed with
  | none => none
  | some ret =>
    if ret < 0 ∨ (ret = 0 ∧ strict = true) then
      none
    else
      match cutoff with
      | none => some ret
      | some c => if c = 0 then some ret else some (min ret c)

/-- The class-level configuration of `LimitOffsetPagination`:
`default_limit = api_settings.PAGE_SIZE` (possibly `None`),
`limit_query_param = 'limit'`, `offset_query_param = 'offset'`,
`max_limit = None`.  Subclasses may override any of these. -/
structure Config where
  default_limit : Option Int
  limit_query_param : String := "limit"
  offset_query_param : String := "offset"
  max_limit : Option Int := none
  deriving DecidableEq

/-- `LimitOffsetPagination.get_limit(request)`: when the limit parameter name
is truthy (non-empty), try `_positive_int` on the request's limit parameter
with `strict=True` and `cutoff=max_limit`; on `KeyError` or `ValueError` fall
through to `default_limit`. -/
def get_limit (cfg : Config) (r : Request) : Option Int :=
  if cfg.limit_query_param ≠ "" then
    match r.getQueryParam cfg.limit_query_param with
    | none => cfg.default_limit
    | some parsed =>
      match _positive_int parsed true cfg.max_limit with
      | none => cfg.default_limit
      | some v => some v
  else
    cfg.default_limit

/-- `LimitOffsetPagination.get_offset(request)`: `_positive_int` on the
request's offset parameter (non-strict, no cutoff); on `KeyError` or
`ValueError` return `0`. -/
def get_offset (cfg : Config) (r : Request) : Int :=
  match r.getQueryParam cfg.offset_query_param with
  | none => 0
  | some parsed =>
    match _positive_int parsed false none with
    | none => 0
    | some v => v

/-- Clamp one bound of a Python slice `xs[a:b]` into `[0, n]`: a negative
index counts from the end (`max (i + n) 0`), a non-negative one is capped at
`n`. -/
def pyBound (n : Nat) (i : Int) : Nat :=
  if i < 0 then (i + n).toNat else min i.toNat n

/-- The Python slice `xs[a:b]` (step 1), as pandas positional row slicing
performs it. -/
def pySlice (xs : List α) (a b : Int) : List α :=
  (xs.drop (pyBound xs.length a)).take (pyBound xs.length b - pyBound xs.length a)

/-- The request-scoped fields `self.limit`, `self.offset`, `self.count` that
`paginate_dataframe` stores on the pager instance. -/
structure PagerState where
  limit : Int
  offset : Int
  count : Int
  deriving DecidableEq, Repr

/-- What `LimitOffsetPagination.paginate_dataframe` returns: `disabled` is the
Python `None` sentinel (pagination turned off because `get_limit` returned
`None`); otherwise `page st rows` records the stored pager state and the
returned rows (the empty list when `count == 0 or offset > count`). -/
inductive PaginateOutcome (α : Type) where
  | disabled
  | page (st : PagerState) (rows : List α)
  deriving DecidableEq

/-- `LimitOffsetPagination.paginate_dataframe(dataframe, request)`.  The
second component of the result is the dataframe object as it stands after the
call: the method only evaluates `len(dataframe)` and the non-mutating slice
`dataframe[offset : offset + limit]`, so threading the dataframe through each
operation of the source returns it unchanged. -/
def paginate_dataframe (cfg : Config) (df : List α) (r : Request) :
    PaginateOutcome α × List α :=
  match get_limit cfg r with
  | none => (PaginateOutcome.disabled, df)
  | some lim =>
    let off := get_offset cfg r
    let cnt : Int := (df.length : Int)
    if cnt = 0 ∨ off > cnt then
      (PaginateOutcome.page ⟨lim, off, cnt⟩ [], df)
    else
      (PaginateOutcome.page ⟨lim, off, cnt⟩ (pySlice df off (off + lim)), df)

/-- `LimitOffsetPagination.get_next_link()`, with the pager state and the
request's absolute URI passed explicitly. -/
def get_next_link (cfg : Config) (st : PagerState) (uri : Url) : Option Url :=
  if st.offset + st.limit ≥ st.count then
    none
  else
    let url := replace_query_param uri cfg.limit_query_param (toString st.limit)
    some (replace_query_param url cfg.offset_query_param (toString (st.offset + st.limit)))

/-- `LimitOffsetPagination.get_previous_link()`, with the pager state and the
request's absolute URI passed explicitly. -/
def get_previous_link (cfg : Config) (st : PagerState) (uri : Url) : Option Url :=
  if st.offset ≤ 0 then
    none
  else
    let url := replace_query_param uri cfg.limit_query_param (toString st.limit)
    if st.offset - st.limit ≤ 0 then
      some (remove_query_param url cfg.offset_query_param)
    else
      some (replace_query_param url cfg.offset_query_param (toString (st.offset - st.limit)))

/-- `rest_framework.pagination._divide_with_ceil(a, b)`:
`a // b + 1 if a % b else a // b`, with Python floor division and
sign-of-divisor modulus. -/
def _divide_with_ceil (a b : Int) : Int :=
  if Int.fmod a b ≠ 0 then Int.fdiv a b + 1 else Int.fdiv a b

/-- The `current` and `final` page numbers computed by
`LimitOffsetPagination.get_html_context()`: when `self.limit` is truthy
(a non-zero int), `current = ceil(offset / limit) + 1` and
`final = ceil((count - offset) / limit) + ceil(offset / limit)` clamped below
at `1`; otherwise both are `1`; finally `current` is clamped down to `final`
when it exceeds it. -/
def html_current_final (st : PagerState) : Int × Int :=
  if st.limit ≠ 0 then
    let current := _divide_with_ceil st.offset st.limit + 1
    let final :=
      _divide_with_ceil (st.count - st.offset) st.limit +
        _divide_with_ceil st.offset st.limit
    let final := if final < 1 then 1 else final
    if current > final then (final, final) else (current, final)
  else
    (1, 1)

/-- The closure `page_number_to_url(page_number)` defined inside
`get_html_context`; `current` is the (already clamped) current page number it
closes over, and `base_url` is `request.build_absolute_uri()`. -/
def page_number_to_url (cfg : Config) (st : PagerState) (current : Int) (base_url : Url)
    (page_number : Int) : Url :=
  if page_number = 1 then
    remove_query_param base_url cfg.offset_query_param
  else
    replace_query_param base_url cfg.offset_query_param
      (toString (st.offset + (page_number - current) * st.limit))


/-!
## Concrete sample data for witness instances
-/

/-- A concrete configuration with no default page size (`PAGE_SIZE = None`),
the shipped parameter names, and no maximum limit. -/
def sampleCfg : Config := { default_limit := none }

/-- A concrete configuration whose default page size is 2. -/
def sampleCfg2 : Config := { default_limit := some 2 }

/-- A concrete base URL carrying one unrelated query parameter. -/
def sampleUri : Url := ⟨"http://api.example.org/accounts/", [("q", "x")]⟩

/-- A concrete request with `limit=3` and `offset=2`. -/
def sampleReq1 : Request := ⟨[("limit", some 3), ("offset", some 2)], sampleUri⟩

/-- A concrete request with no query parameters at all. -/
def sampleReqNone : Request := ⟨[], sampleUri⟩

/-- A concrete request whose limit value `0` fails the strict positive parse
and whose offset value `-4` fails the non-negative parse. -/
def sampleReqBad : Request := ⟨[("limit", some 0), ("offset", some (-4))], sampleUri⟩

/-- The ten-row dataframe `[0, 1, ..., 9]`. -/
def sampleDf : List Nat := [0, 1, 2, 3, 4, 5, 6, 7, 8, 9]

/-!
## Helper lemmas about query-string manipulation
-/

theorem find?_filter_self_none (l : List (String × String)) (k : String) :
    (l.filter (fun p => p.1 ≠ k)).find? (fun p => p.1 == k) = none := by
  rw [List.find?_eq_none]
  intro x hx
  rw [List.mem_filter] at hx
  simp only [decide_eq_true_eq] at hx
  simp [hx.2]

theorem find?_filter_append_self (l : List (String × String)) (k v : String) :
    ((l.filter (fun p => p.1 ≠ k)) ++ [(k, v)]).find? (fun p => p.1 == k) = some (k, v) := by
  rw [List.find?_append, find?_filter_self_none]
  simp [List.find?]

theorem getParam_replace_self (u : Url) (k v : String) :
    (replace_query_param u k v).getParam k = some v := by
  simp [Url.getParam, replace_query_param, find?_filter_append_self]

theorem find?_filter_ne (l : List (String × String)) (k k' : String) (hne : k' ≠ k) :
    (l.filter (fun p => p.1 ≠ k)).find? (fun p => p.1 == k') =
      l.find? (fun p => p.1 == k') := by
  induction l with
  | nil => rfl
  | cons a t ih =>
    by_cases h : a.1 = k
    · have h2 : (a.1 == k') = false := by
        simp only [beq_eq_false_iff_ne, ne_eq]
        rw [h]; exact fun hc => hne hc.symm
      rw [List.filter_cons, if_neg (by simp [h]), List.find?_cons, h2, ih]
    · by_cases h3 : a.1 = k'
      · rw [List.filter_cons, if_pos (by simp [h]), List.find?_cons, List.find?_cons]
        have h2 : (a.1 == k') = true := by simp [h3]
        rw [h2]
      · have h2 : (a.1 == k') = false := by simp [h3]
        rw [List.filter_cons, if_pos (by simp [h]), List.find?_cons, h2,
          List.find?_cons, h2, ih]

theorem getParam_replace_ne (u : Url) (k k' v : String) (hne : k' ≠ k) :
    (replace_query_param u k v).getParam k' = u.getParam k' := by
  have h2 : ((k, v).1 == k') = false := by
    simp only [beq_eq_false_iff_ne, ne_eq]
    exact fun hc => hne hc.symm
  simp only [Url.getParam, replace_query_param, List.find?_append, find?_filter_ne u.query k k' hne]
  cases hfind : u.query.find? (fun p => p.1 == k') with
  | none => simp [List.find?, h2]
  | some p => simp

theorem getParam_remove_self (u : Url) (k : String) :
    (remove_query_param u k).getParam k = none := by
  simp [Url.getParam, remove_query_param, find?_filter_self_none]

theorem getParam_remove_ne (u : Url) (k k' : String) (hne : k' ≠ k) :
    (remove_query_param u k).getParam k' = u.getParam k' := by
  unfold Url.getParam remove_query_param
  rw [find?_filter_ne u.query k k' hne]

/-!
## Helper lemmas about the parsing and ceiling-division arithmetic
-/

theorem _positive_int_nonneg (p : Option Int) (strict : Bool) (cutoff : Option Int) (v : Int)
    (h : _positive_int p strict cutoff = some v) (hc : ∀ c, cutoff = some c → 0 ≤ c) : 0 ≤ v := by
  unfold _positive_int at h
  cases p with
  | none => exact absurd h (by simp)
  | some ret =>
    simp only at h
    split at h
    · exact absurd h (by simp)
    · rename_i hcond
      push_neg at hcond
      cases cutoff with
      | none => cases h; exact hcond.1
      | some c =>
        simp only at h
        split at h
        · cases h; exact hcond.1
        · cases h; exact le_min hcond.1 (hc c rfl)

theorem get_offset_nonneg (cfg : Config) (r : Request) : 0 ≤ get_offset cfg r := by
  unfold get_offset
  cases hq : r.getQueryParam cfg.offset_query_param with
  | none => simp
  | some parsed =>
    simp only
    cases hp : _positive_int parsed false none with
    | none => simp
    | some v =>
      simp only
      exact _positive_int_nonneg parsed false none v hp (by intro c hc; cases hc)

/-- Claim C1: for every dataframe of length N, parsed limit > 0 and the
request's offset, `paginate_dataframe` stores `count = N` and returns the
contiguous slice `[offset, min(offset + limit, N))`; the window is empty when
`N = 0` or `offset > N`, and its length is
`min limit (max 0 (N - offset))` when `offset ≤ N` and `0` otherwise. -/
theorem paginate_dataframe_window {α : Type} (cfg : Config) (df : List α) (r : Request)
    (lim : Int) (hlim : get_limit cfg r = some lim) (hpos : 0 < lim) :
    ∃ w, (paginate_dataframe cfg df r).1 =
        PaginateOutcome.page ⟨lim, get_offset cfg r, (df.length : Int)⟩ w ∧
      (((df.length : Int) = 0 ∨ get_offset cfg r > (df.length : Int)) → w = []) ∧
      ((df.length : Int) ≠ 0 → get_offset cfg r ≤ (df.length : Int) →
        w = (df.drop (get_offset cfg r).toNat).take
              (min lim ((df.length : Int) - get_offset cfg r)).toNat) ∧
      ((w.length : Int) =
        if get_offset cfg r ≤ (df.length : Int)
        then min lim (max 0 ((df.length : Int) - get_offset cfg r))
        else 0) := by
  have hoff := get_offset_nonneg cfg r
  set off := get_offset cfg r with hoffdef
  set n := df.length with hn
  unfold paginate_dataframe
  rw [hlim]
  simp only
  by_cases hcase : (n : Int) = 0 ∨ off > (n : Int)
  · rw [if_pos hcase]
    refine ⟨[], rfl, fun _ => rfl, ?_, ?_⟩
    · intro hne hle
      rcases hcase with h0 | hgt
      · exact absurd h0 hne
      · exact absurd hle (not_le.mpr hgt)
    · simp only [List.length_nil, Nat.cast_zero]
      split_ifs with hof
      · rcases hcase with h0 | hgt <;> omega
      · rfl
  · rw [if_neg hcase]
    push_neg at hcase
    obtain ⟨hn0, hle⟩ := hcase
    refine ⟨pySlice df off (off + lim), rfl, ?_, ?_, ?_⟩
    · intro hc
      rcases hc with h0 | hgt
      · exact absurd h0 hn0
      · exact absurd hle (not_le.mpr hgt)
    · intro _ _
      unfold pySlice pyBound
      rw [if_neg (not_lt.mpr hoff), if_neg (by omega : ¬ off + lim < 0)]
      have hs : min off.toNat n = off.toNat := by omega
      rw [hs]
      congr 1
      omega
    · unfold pySlice pyBound
      rw [if_neg (not_lt.mpr hoff), if_neg (by omega : ¬ off + lim < 0)]
      rw [List.length_take, List.length_drop]
      rw [if_pos hle]
      omega

/-- Claim C2 (amended): when the limit query parameter is absent or cannot be
parsed as a strictly positive integer, `get_limit` falls back to the configured
`default_limit` (no error is raised); pagination is disabled entirely — the
no-pagination sentinel is returned, so the caller serves the full collection —
exactly when `default_limit` is `None`. -/
theorem get_limit_fallback_spec {α : Type} (cfg : Config) (df : List α) (r : Request)
    (h : r.getQueryParam cfg.limit_query_param = none ∨
         ∃ p, r.getQueryParam cfg.limit_query_param = some p ∧
           _positive_int p true cfg.max_limit = none) :
    get_limit cfg r = cfg.default_limit ∧
    ((paginate_dataframe cfg df r).1 = PaginateOutcome.disabled ↔
      cfg.default_limit = none) := by
  have hgl : get_limit cfg r = cfg.default_limit := by
    unfold get_limit
    by_cases hq : cfg.limit_query_param ≠ ""
    · rw [if_pos hq]
      rcases h with habs | ⟨p, hp, hfail⟩
      · rw [habs]
      · rw [hp]
        dsimp only
        rw [hfail]
    · rw [if_neg hq]
  refine ⟨hgl, ?_⟩
  unfold paginate_dataframe
  rw [hgl]
  cases hd : cfg.default_limit with
  | none => simp
  | some v =>
    dsimp only
    split <;> simp

/-- Claim C9: whenever the offset query parameter is absent, unparseable by
`int()`, or parses to a negative integer, `get_offset` returns 0; the function
is total, so no error reaches the caller. -/
theorem get_offset_default_zero (cfg : Config) (r : Request)
    (h : r.getQueryParam cfg.offset_query_param = none ∨
         r.getQueryParam cfg.offset_query_param = some none ∨
         ∃ v, r.getQueryParam cfg.offset_query_param = some (some v) ∧ v < 0) :
    get_offset cfg r = 0 := by
  unfold get_offset
  rcases h with h | h | ⟨v, hv, hneg⟩
  · rw [h]
  · rw [h]
    rfl
  · have hfail : _positive_int (some v) false none = none := by
      unfold _positive_int
      exact if_pos (Or.inl hneg)
    rw [hv]
    dsimp only
    rw [hfail]

/-- Claim C10: `paginate_dataframe` leaves the input dataframe unchanged —
threading the dataframe through every operation of the source returns it
intact — and any returned page is a contiguous sub-window of the input, so
every row of the dataframe equals its value before the call. -/
theorem paginate_dataframe_preserves {α : Type} (cfg : Config) (df : List α) (r : Request)
    (st : PagerState) (w : List α)
    (h : (paginate_dataframe cfg df r).1 = PaginateOutcome.page st w) :
    (paginate_dataframe cfg df r).2 = df ∧ ∃ pre post, df = pre ++ w ++ post := by
  constructor
  · unfold paginate_dataframe
    cases get_limit cfg r with
    | none => rfl
    | some lim =>
      dsimp only
      split <;> rfl
  · unfold paginate_dataframe at h
    cases hgl : get_limit cfg r with
    | none => rw [hgl] at h; cases h
    | some lim =>
      rw [hgl] at h
      dsimp only at h
      split at h
      · cases h
        exact ⟨[], df, by simp⟩
      · cases h
        refine ⟨df.take (pyBound df.length (get_offset cfg r)),
          (df.drop (pyBound df.length (get_offset cfg r))).drop
            (pyBound df.length (get_offset cfg r + lim) -
              pyBound df.length (get_offset cfg r)), ?_⟩
        unfold pySlice
        rw [List.append_assoc, List.take_append_drop, List.take_append_drop]

/-- Claim C3: `get_next_link` returns null exactly when
`offset + limit >= count`; otherwise it returns the request URL with the limit
parameter set to `limit`, the offset parameter replaced by `offset + limit`,
and every other query parameter preserved. -/
theorem get_next_link_spec (cfg : Config) (st : PagerState) (uri : Url) (k : String)
    (hne : cfg.limit_query_param ≠ cfg.offset_query_param)
    (hk1 : k ≠ cfg.offset_query_param) (hk2 : k ≠ cfg.limit_query_param) :
    (get_next_link cfg st uri = none ↔ st.offset + st.limit ≥ st.count) ∧
    (st.offset + st.limit < st.count →
      ∃ u, get_next_link cfg st uri = some u ∧
        u.getParam cfg.offset_query_param = some (toString (st.offset + st.limit)) ∧
        u.getParam cfg.limit_query_param = some (toString st.limit) ∧
        u.getParam k = uri.getParam k) := by
  constructor
  · unfold get_next_link
    split
    · rename_i hge
      simp [hge]
    · rename_i hlt
      simp only [ge_iff_le, not_le] at hlt
      simp
      omega
  · intro hlt
    unfold get_next_link
    rw [if_neg (not_le.mpr hlt)]
    refine ⟨_, rfl, ?_, ?_, ?_⟩
    · exact getParam_replace_self _ _ _
    · rw [getParam_replace_ne _ _ _ _ hne]
      exact getParam_replace_self _ _ _
    · rw [getParam_replace_ne _ _ _ _ hk1, getParam_replace_ne _ _ _ _ hk2]

/-- Claim C4: `get_previous_link` returns null exactly when `offset <= 0`;
when `0 < offset` and `offset - limit <= 0` it returns the request URL with
the offset parameter removed; and when `0 < offset - limit` it returns the
request URL with the offset parameter replaced by `offset - limit` (other
query parameters preserved, limit parameter normalised). -/
theorem get_previous_link_spec (cfg : Config) (st : PagerState) (uri : Url) (k : String)
    (hne : cfg.limit_query_param ≠ cfg.offset_query_param)
    (hk1 : k ≠ cfg.offset_query_param) (hk2 : k ≠ cfg.limit_query_param) :
    (get_previous_link cfg st uri = none ↔ st.offset ≤ 0) ∧
    (0 < st.offset → st.offset - st.limit ≤ 0 →
      ∃ u, get_previous_link cfg st uri = some u ∧
        u.getParam cfg.offset_query_param = none ∧
        u.getParam cfg.limit_query_param = some (toString st.limit) ∧
        u.getParam k = uri.getParam k) ∧
    (0 < st.offset → 0 < st.offset - st.limit →
      ∃ u, get_previous_link cfg st uri = some u ∧
        u.getParam cfg.offset_query_param = some (toString (st.offset - st.limit)) ∧
        u.getParam cfg.limit_query_param = some (toString st.limit) ∧
        u.getParam k = uri.getParam k) := by
  refine ⟨?_, ?_, ?_⟩
  · unfold get_previous_link
    split
    · rename_i hle
      simp [hle]
    · rename_i hgt
      simp only [not_le] at hgt
      dsimp only
      split <;> simp <;> omega
  · intro h1 h2
    unfold get_previous_link
    rw [if_neg (not_le.mpr h1), if_pos h2]
    refine ⟨_, rfl, ?_, ?_, ?_⟩
    · exact getParam_remove_self _ _
    · rw [getParam_remove_ne _ _ _ hne]
      exact getParam_replace_self _ _ _
    · rw [getParam_remove_ne _ _ _ hk1, getParam_replace_ne _ _ _ _ hk2]
  · intro h1 h2
    unfold get_previous_link
    rw [if_neg (not_le.mpr h1), if_neg (not_le.mpr h2)]
    refine ⟨_, rfl, ?_, ?_, ?_⟩
    · exact getParam_replace_self _ _ _
    · rw [getParam_replace_ne _ _ _ _ hne]
      exact getParam_replace_self _ _ _
    · rw [getParam_replace_ne _ _ _ _ hk1, getParam_replace_ne _ _ _ _ hk2]

/-- Claim C5: on an interior page (`0 < offset` and
`offset + limit < count`) the next link exists, and the previous link computed
at position `offset + limit` carries offset parameter `offset` — following
next then previous returns to the original offset; and in the boundary state
where the resulting previous offset would be ≤ 0, the previous link instead
removes the offset parameter. -/
theorem next_previous_roundtrip (cfg : Config) (st st2 : PagerState) (uri : Url)
    (hoff : 0 < st.offset) (hlim : 0 < st.limit) (hin : st.offset + st.limit < st.count)
    (h2a : 0 < st2.offset) (h2b : st2.offset - st2.limit ≤ 0) :
    (∃ u, get_next_link cfg st uri = some u) ∧
    (∃ v, get_previous_link cfg { st with offset := st.offset + st.limit } uri = some v ∧
      v.getParam cfg.offset_query_param = some (toString st.offset)) ∧
    (∃ w, get_previous_link cfg st2 uri = some w ∧
      w.getParam cfg.offset_query_param = none) := by
  refine ⟨?_, ?_, ?_⟩
  · unfold get_next_link
    rw [if_neg (not_le.mpr hin)]
    exact ⟨_, rfl⟩
  · unfold get_previous_link
    dsimp only
    rw [if_neg (by omega : ¬ st.offset + st.limit ≤ 0),
      if_neg (by omega : ¬ st.offset + st.limit - st.limit ≤ 0)]
    rw [show st.offset + st.limit - st.limit = st.offset from by ring]
    exact ⟨_, rfl, getParam_replace_self _ _ _⟩
  · unfold get_previous_link
    rw [if_neg (not_le.mpr h2a), if_pos h2b]
    exact ⟨_, rfl, getParam_remove_self _ _⟩

theorem _divide_with_ceil_nonneg (a b : Int) (ha : 0 ≤ a) (hb : 0 < b) :
    0 ≤ _divide_with_ceil a b := by
  unfold _divide_with_ceil
  have hd : 0 ≤ Int.fdiv a b := by
    rw [Int.fdiv_eq_ediv _ (le_of_lt hb)]
    exact Int.ediv_nonneg ha (le_of_lt hb)
  split <;> omega

/-- Claim C6: for every pager state with non-negative offset and limit, the
current and final page numbers of `get_html_context` satisfy
`1 ≤ current ≤ final`: `final` is clamped below at 1 and `current` is clamped
down to `final` when it exceeds it. -/
theorem html_current_le_final (st : PagerState) (hoff : 0 ≤ st.offset)
    (hlim : 0 ≤ st.limit) :
    1 ≤ (html_current_final st).1 ∧ (html_current_final st).1 ≤ (html_current_final st).2 := by
  unfold html_current_final
  by_cases h0 : st.limit = 0
  · rw [if_neg (not_ne_iff.mpr h0)]
    exact ⟨le_refl 1, le_refl 1⟩
  · rw [if_pos h0]
    have hq : 0 ≤ _divide_with_ceil st.offset st.limit :=
      _divide_with_ceil_nonneg _ _ hoff (lt_of_le_of_ne hlim (Ne.symm h0))
    dsimp only
    split_ifs with h1 h2 <;> dsimp only <;> omega

/-- Claim C7 (amended): for offset ≥ 0 and limit > 0, `get_html_context`
computes `final = max 1 (ceil((count - offset) / limit) + ceil(offset / limit))`
and `current = min (ceil(offset / limit) + 1) final` — i.e. the formula of the
claim additionally clamped down to `final`; when the limit is zero, current and
final are both 1. -/
theorem html_current_final_formula (st : PagerState) (hoff : 0 ≤ st.offset) :
    (0 < st.limit →
      (html_current_final st).2 =
        max 1 (_divide_with_ceil (st.count - st.offset) st.limit +
          _divide_with_ceil st.offset st.limit) ∧
      (html_current_final st).1 =
        min (_divide_with_ceil st.offset st.limit + 1)
          (max 1 (_divide_with_ceil (st.count - st.offset) st.limit +
            _divide_with_ceil st.offset st.limit))) ∧
    (st.limit = 0 → html_current_final st = (1, 1)) := by
  constructor
  · intro hpos
    unfold html_current_final
    rw [if_pos (ne_of_gt hpos)]
    have hq : 0 ≤ _divide_with_ceil st.offset st.limit :=
      _divide_with_ceil_nonneg _ _ hoff hpos
    dsimp only
    split_ifs with h1 h2 <;> dsimp only <;> constructor <;> omega
  · intro h0
    unfold html_current_final
    rw [if_neg (not_ne_iff.mpr h0)]

/-- Claim C8: the page-number-to-URL mapping of `get_html_context` is
anchored at the current page: applied to the (possibly clamped) current page
number it yields a URL whose offset parameter is exactly the pager's stored
offset, and applied to page 1 it removes the offset parameter. -/
theorem page_number_to_url_anchor (cfg : Config) (st : PagerState) (current : Int)
    (base_url : Url) (hne1 : current ≠ 1) :
    (page_number_to_url cfg st current base_url current).getParam cfg.offset_query_param =
      some (toString st.offset) ∧
    (page_number_to_url cfg st current base_url 1).getParam cfg.offset_query_param = none := by
  constructor
  · unfold page_number_to_url
    rw [if_neg hne1]
    rw [show st.offset + (current - current) * st.limit = st.offset from by ring]
    exact getParam_replace_self _ _ _
  · unfold page_number_to_url
    rw [if_pos rfl]
    exact getParam_remove_self _ _

/-!
## Counterexamples and concrete witness instances
-/

/-- Witness for C1 at limit 3, offset 2, N = 10. -/
theorem paginate_dataframe_window_witness :
    get_limit sampleCfg sampleReq1 = some 3 ∧ (0 : Int) < 3 ∧
    (∃ w, (paginate_dataframe sampleCfg sampleDf sampleReq1).1 =
        PaginateOutcome.page ⟨3, get_offset sampleCfg sampleReq1, (sampleDf.length : Int)⟩ w ∧
      (((sampleDf.length : Int) = 0 ∨
          get_offset sampleCfg sampleReq1 > (sampleDf.length : Int)) → w = []) ∧
      ((sampleDf.length : Int) ≠ 0 →
        get_offset sampleCfg sampleReq1 ≤ (sampleDf.length : Int) →
        w = (sampleDf.drop (get_offset sampleCfg sampleReq1).toNat).take
              (min 3 ((sampleDf.length : Int) - get_offset sampleCfg sampleReq1)).toNat) ∧
      ((w.length : Int) =
        if get_offset sampleCfg sampleReq1 ≤ (sampleDf.length : Int)
        then min 3 (max 0 ((sampleDf.length : Int) - get_offset sampleCfg sampleReq1))
        else 0)) :=
  ⟨by decide, by decide,
    paginate_dataframe_window sampleCfg sampleDf sampleReq1 3 (by decide) (by decide)⟩

/-- Counterexample to claim C2 as stated: with `default_limit = 2` configured
and no limit parameter on the request, pagination is not disabled — the pager
returns a two-row page of the ten-row dataframe instead of the no-pagination
sentinel, so the full collection is not returned. -/
theorem get_limit_default_counterexample :
    Request.getQueryParam sampleReqNone "limit" = none ∧
    (paginate_dataframe sampleCfg2 sampleDf sampleReqNone).1 =
      PaginateOutcome.page ⟨2, 0, 10⟩ [0, 1] := by decide

/-- Witness for the amended C2: a malformed limit value of 0 with
`default_limit = None` disables pagination. -/
theorem get_limit_fallback_spec_witness :
    (Request.getQueryParam sampleReqBad sampleCfg.limit_query_param = none ∨
      ∃ p, Request.getQueryParam sampleReqBad sampleCfg.limit_query_param = some p ∧
        _positive_int p true sampleCfg.max_limit = none) ∧
    (get_limit sampleCfg sampleReqBad = sampleCfg.default_limit ∧
      ((paginate_dataframe sampleCfg sampleDf sampleReqBad).1 = PaginateOutcome.disabled ↔
        sampleCfg.default_limit = none)) :=
  ⟨Or.inr ⟨some 0, by decide, by decide⟩,
    get_limit_fallback_spec sampleCfg sampleDf sampleReqBad
      (Or.inr ⟨some 0, by decide, by decide⟩)⟩

/-- Witness for C3 at offset 2, limit 3, count 10. -/
theorem get_next_link_spec_witness :
    sampleCfg.limit_query_param ≠ sampleCfg.offset_query_param ∧
    ("q" : String) ≠ sampleCfg.offset_query_param ∧
    ("q" : String) ≠ sampleCfg.limit_query_param ∧
    ((get_next_link sampleCfg ⟨3, 2, 10⟩ sampleUri = none ↔ (2 : Int) + 3 ≥ 10) ∧
      ((2 : Int) + 3 < 10 →
        ∃ u, get_next_link sampleCfg ⟨3, 2, 10⟩ sampleUri = some u ∧
          u.getParam sampleCfg.offset_query_param = some (toString ((2 : Int) + 3)) ∧
          u.getParam sampleCfg.limit_query_param = some (toString (3 : Int)) ∧
          u.getParam "q" = sampleUri.getParam "q")) :=
  ⟨by decide, by decide, by decide,
    get_next_link_spec sampleCfg ⟨3, 2, 10⟩ sampleUri "q" (by decide) (by decide) (by decide)⟩

/-- Witness for C4 at offset 2, limit 3, count 10 (first-page boundary). -/
theorem get_previous_link_spec_witness :
    sampleCfg.limit_query_param ≠ sampleCfg.offset_query_param ∧
    ("q" : String) ≠ sampleCfg.offset_query_param ∧
    ("q" : String) ≠ sampleCfg.limit_query_param ∧
    ((get_previous_link sampleCfg ⟨3, 2, 10⟩ sampleUri = none ↔ (2 : Int) ≤ 0) ∧
      ((0 : Int) < 2 → (2 : Int) - 3 ≤ 0 →
        ∃ u, get_previous_link sampleCfg ⟨3, 2, 10⟩ sampleUri = some u ∧
          u.getParam sampleCfg.offset_query_param = none ∧
          u.getParam sampleCfg.limit_query_param = some (toString (3 : Int)) ∧
          u.getParam "q" = sampleUri.getParam "q") ∧
      ((0 : Int) < 2 → (0 : Int) < 2 - 3 →
        ∃ u, get_previous_link sampleCfg ⟨3, 2, 10⟩ sampleUri = some u ∧
          u.getParam sampleCfg.offset_query_param = some (toString ((2 : Int) - 3)) ∧
          u.getParam sampleCfg.limit_query_param = some (toString (3 : Int)) ∧
          u.getParam "q" = sampleUri.getParam "q")) :=
  ⟨by decide, by decide, by decide,
    get_previous_link_spec sampleCfg ⟨3, 2, 10⟩ sampleUri "q"
      (by decide) (by decide) (by decide)⟩

/-- Witness for C5 at the interior page offset 4, limit 3, count 10, with
boundary state offset 2, limit 3, count 10. -/
theorem next_previous_roundtrip_witness :
    (0 : Int) < 4 ∧ (0 : Int) < 3 ∧ (4 : Int) + 3 < 10 ∧
    (0 : Int) < 2 ∧ (2 : Int) - 3 ≤ 0 ∧
    ((∃ u, get_next_link sampleCfg ⟨3, 4, 10⟩ sampleUri = some u) ∧
      (∃ v, get_previous_link sampleCfg ⟨3, (4 : Int) + 3, 10⟩ sampleUri = some v ∧
        v.getParam sampleCfg.offset_query_param = some (toString (4 : Int))) ∧
      (∃ w, get_previous_link sampleCfg ⟨3, 2, 10⟩ sampleUri = some w ∧
        w.getParam sampleCfg.offset_query_param = none)) :=
  ⟨by decide, by decide, by decide, by decide, by decide,
    next_previous_roundtrip sampleCfg ⟨3, 4, 10⟩ ⟨3, 2, 10⟩ sampleUri
      (by decide) (by decide) (by decide) (by decide) (by decide)⟩

/-- Witness for C6 at offset 4, limit 3, count 10. -/
theorem html_current_le_final_witness :
    (0 : Int) ≤ 4 ∧ (0 : Int) ≤ 3 ∧
    (1 ≤ (html_current_final ⟨3, 4, 10⟩).1 ∧
      (html_current_final ⟨3, 4, 10⟩).1 ≤ (html_current_final ⟨3, 4, 10⟩).2) :=
  ⟨by decide, by decide, html_current_le_final ⟨3, 4, 10⟩ (by decide) (by decide)⟩

/-- Counterexample to claim C7 as stated: at offset 9, limit 2, count 5 the
code clamps current down to final, so the computed current page is 3, not
`ceil(9 / 2) + 1 = 6` as the un-clamped formula of the claim requires. -/
theorem html_current_formula_counterexample :
    (0 : Int) ≤ 9 ∧ (0 : Int) < 2 ∧
    (html_current_final ⟨2, 9, 5⟩).1 ≠ _divide_with_ceil 9 2 + 1 := by decide

/-- Witness for the amended C7 at offset 9, limit 2, count 5. -/
theorem html_current_final_formula_witness :
    (0 : Int) ≤ 9 ∧
    (((0 : Int) < 2 →
      (html_current_final ⟨2, 9, 5⟩).2 =
        max 1 (_divide_with_ceil ((5 : Int) - 9) 2 + _divide_with_ceil 9 2) ∧
      (html_current_final ⟨2, 9, 5⟩).1 =
        min (_divide_with_ceil 9 2 + 1)
          (max 1 (_divide_with_ceil ((5 : Int) - 9) 2 + _divide_with_ceil 9 2))) ∧
    ((2 : Int) = 0 → html_current_final ⟨2, 9, 5⟩ = (1, 1))) :=
  ⟨by decide, html_current_final_formula ⟨2, 9, 5⟩ (by decide)⟩

/-- Witness for C8 at current page 3 with offset 6, limit 3, count 10. -/
theorem page_number_to_url_anchor_witness :
    (3 : Int) ≠ 1 ∧
    ((page_number_to_url sampleCfg ⟨3, 6, 10⟩ 3 sampleUri 3).getParam
        sampleCfg.offset_query_param = some (toString (6 : Int)) ∧
      (page_number_to_url sampleCfg ⟨3, 6, 10⟩ 3 sampleUri 1).getParam
        sampleCfg.offset_query_param = none) :=
  ⟨by decide, page_number_to_url_anchor sampleCfg ⟨3, 6, 10⟩ 3 sampleUri (by decide)⟩

/-- Witness for C9: the offset value `-4` parses negative, so the offset
defaults to 0. -/
theorem get_offset_default_zero_witness :
    (Request.getQueryParam sampleReqBad sampleCfg.offset_query_param = none ∨
      Request.getQueryParam sampleReqBad sampleCfg.offset_query_param = some none ∨
      ∃ v, Request.getQueryParam sampleReqBad sampleCfg.offset_query_param = some (some v) ∧
        v < 0) ∧
    get_offset sampleCfg sampleReqBad = 0 :=
  ⟨Or.inr (Or.inr ⟨-4, by decide, by decide⟩),
    get_offset_default_zero sampleCfg sampleReqBad (Or.inr (Or.inr ⟨-4, by decide, by decide⟩))⟩

/-- Witness for C10 at limit 3, offset 2 on the ten-row dataframe. -/
theorem paginate_dataframe_preserves_witness :
    (paginate_dataframe sampleCfg sampleDf sampleReq1).1 =
      PaginateOutcome.page ⟨3, 2, 10⟩ [2, 3, 4] ∧
    ((paginate_dataframe sampleCfg sampleDf sampleReq1).2 = sampleDf ∧
      ∃ pre post, sampleDf = pre ++ [2, 3, 4] ++ post) :=
  ⟨by decide,
    paginate_dataframe_preserves sampleCfg sampleDf sampleReq1 ⟨3, 2, 10⟩ [2, 3, 4] (by decide)⟩
